import Mathlib

/-!
Verification of the message-passing and orchestration kernel of the
multi-agent procurement system.

The Lean definitions below are a shallow embedding of the Python source:

* src/agents_v2/agent_communication.py  (Envelope, Bus, agent dispatch)
* src/agents_v2/agentic_supervisor.py   (Supervisor arbitration and case lifecycle)
* src/session/manager.py                (workflow/session state machine)

Modelling conventions, used consistently throughout:

* Python dictionaries are modelled as association lists
  (List (String × _)) with first-occurrence lookup and
  replace-first-or-append insertion, which preserves the observable
  behaviour of dict lookup and dict assignment including insertion order.
* uuid.uuid4() and datetime.utcnow() are effectful; each call site takes
  the generated value as an explicit parameter (freshId, now : Nat, ...).
* Message content is Dict[str, Any] in Python; the claims under study
  only inspect string-valued entries, so content is modelled as
  List (String × String).  Nested domain payloads (supplier records,
  requirement dicts) are opaque to the kernel and are abstracted the
  same way.
* datetime timestamps are modelled as Nat ticks.
-/

/-- Lookup of the first binding of a key in an association list,
modelling Python dict lookup (dict.get). -/
def alookup {α : Type} : List (String × α) → String → Option α
  | [], _ => none
  | (k, v) :: rest, key => if k = key then some v else alookup rest key

/-- Replace the first binding of a key, or append a new binding at the end,
modelling Python dict assignment d[k] = v (insertion order preserved). -/
def alinsert {α : Type} : List (String × α) → String → α → List (String × α)
  | [], key, v => [(key, v)]
  | (k, w) :: rest, key, v =>
    if k = key then (k, v) :: rest else (k, w) :: alinsert rest key v

theorem alookup_alinsert_self {α : Type} (l : List (String × α)) (k : String) (v : α) :
    alookup (alinsert l k v) k = some v := by
  induction l with
  | nil => simp [alinsert, alookup]
  | cons hd tl ih =>
    obtain ⟨k', w⟩ := hd
    by_cases h : k' = k
    · simp [alinsert, alookup, h]
    · simp [alinsert, alookup, h, ih]

theorem alookup_alinsert_ne {α : Type} (l : List (String × α)) (k k' : String) (v : α)
    (h : k' ≠ k) : alookup (alinsert l k v) k' = alookup l k' := by
  have h2 : ¬(k = k') := Ne.symm h
  induction l with
  | nil => simp [alinsert, alookup, h2]
  | cons hd tl ih =>
    obtain ⟨k0, w⟩ := hd
    by_cases h0 : k0 = k
    · subst h0
      simp [alinsert, alookup, h2]
    · by_cases h1 : k0 = k'
      · simp [alinsert, alookup, h0, h1, h, h2]
      · simp [alinsert, alookup, h0, h1, ih]

/-- Kinds of inter-agent messages (class MessageType in
agent_communication.py). -/
inductive MessageType : Type
  | request
  | response
  | notification
  | error
  deriving DecidableEq, Repr

/-- A message passed between agents (dataclass AgentMessage in
agent_communication.py).  The id, timestamp and conversation id defaults
are produced at construction time in the source; constructors below pass
them explicitly. -/
structure AgentMessage : Type where
  id : String
  from_agent : String
  to_agent : String
  message_type : MessageType
  content : List (String × String)
  conversation_id : String
  requires_response : Bool
  deriving DecidableEq, Repr

/-- Central message bus (class MessageBus in agent_communication.py).
agents holds the ids of registered agents; the behaviour of a registered
agent on delivery is treated separately (BaseAgentV2 below), so the bus
state records which agent a send was routed to rather than re-entering
the handler. -/
structure MessageBus : Type where
  agents : List String
  message_history : List AgentMessage
  active_conversations : List (String × List AgentMessage)
  deriving DecidableEq, Repr

/-- Append a message to the per-conversation index, modelling the
two-step Python idiom: if conv_id not in active_conversations, bind it
to an empty list, then append. -/
def convAppend : List (String × List AgentMessage) → String → AgentMessage →
    List (String × List AgentMessage)
  | [], cid, m => [(cid, [m])]
  | (k, v) :: rest, cid, m =>
    if k = cid then (k, v ++ [m]) :: rest else (k, v) :: convAppend rest cid m

/-- MessageBus.send_message: appends the message to the global history and
to the conversation index, then routes to the target agent when it is
registered.  The second component reports which agent (if any) had its
receive entry point invoked; an unregistered target is only logged in the
source, no exception reaches the caller. -/
def MessageBus.send_message (bus : MessageBus) (m : AgentMessage) :
    MessageBus × Option String :=
  ({ bus with
     message_history := bus.message_history ++ [m]
     active_conversations := convAppend bus.active_conversations m.conversation_id m },
   if bus.agents.contains m.to_agent then some m.to_agent else none)

/-- MessageBus.get_conversation_history: all messages of one conversation,
empty when the id was never seen (dict.get(conversation_id, [])). -/
def MessageBus.get_conversation_history (bus : MessageBus) (conversation_id : String) :
    List AgentMessage :=
  (alookup bus.active_conversations conversation_id).getD []

/-- Sequence of send_message calls in invocation order.  Delivery is
synchronous in the source, so the flat list of send invocations in call
order is exactly the bus-arrival order. -/
def MessageBus.sendAll (bus : MessageBus) : List AgentMessage → MessageBus
  | [] => bus
  | m :: rest => ((bus.send_message m).1).sendAll rest

theorem alookup_convAppend (l : List (String × List AgentMessage)) (cid : String)
    (m : AgentMessage) (id : String) :
    alookup (convAppend l cid m) id =
      if id = cid then some ((alookup l cid).getD [] ++ [m]) else alookup l id := by
  induction l with
  | nil =>
    by_cases h : id = cid
    · simp [convAppend, alookup, h]
    · simp [convAppend, alookup, h, Ne.symm h]
  | cons hd tl ih =>
    obtain ⟨k, v⟩ := hd
    by_cases hk : k = cid
    · subst hk
      by_cases h : id = k
      · simp [convAppend, alookup, h]
      · simp [convAppend, alookup, h, Ne.symm h]
    · by_cases h : id = cid
      · subst h
        simp [convAppend, alookup, hk, Ne.symm hk, ih]
      · by_cases h2 : k = id <;> simp [convAppend, alookup, hk, h2, ih, h]

theorem get_conversation_send (bus : MessageBus) (m : AgentMessage) (id : String) :
    ((bus.send_message m).1).get_conversation_history id =
      bus.get_conversation_history id ++ (if m.conversation_id = id then [m] else []) := by
  unfold MessageBus.send_message MessageBus.get_conversation_history
  by_cases h : id = m.conversation_id
  · simp [alookup_convAppend, h]
  · simp [alookup_convAppend, h, Ne.symm h]

/-- Result of one agent-level send_message call.  msgId is the value the
Python method returns; sent lists the envelopes handed to Bus.send_message
(empty when no bus is attached, because the send is then skipped);
delivered reports which registered agent (if any) the Bus routed to. -/
structure SendOutcome : Type where
  msgId : String
  busAfter : Option MessageBus
  sent : List AgentMessage
  delivered : Option String
  deriving DecidableEq, Repr

/-- Base class state for autonomous agents (class BaseAgentV2 in
agent_communication.py).  capabilities and current_conversations play no
role in the claims and are omitted. -/
structure BaseAgentV2 : Type where
  agent_id : String
  message_bus : Option MessageBus
  deriving DecidableEq, Repr

/-- BaseAgentV2.send_message.  conversationId models the Python keyword
argument with default None; the source tests it for falsiness
(if not conversation_id), so both None and the empty string trigger fresh
generation, and the empty string plays the role of None here.  freshMsgId
and freshCid are the uuid4 values drawn at this call. -/
def BaseAgentV2.send_message (a : BaseAgentV2) (toAgent : String)
    (content : List (String × String)) (mtype : MessageType)
    (conversationId : String) (freshMsgId freshCid : String) : SendOutcome :=
  let cid := if conversationId = "" then freshCid else conversationId
  let m : AgentMessage :=
    { id := freshMsgId
      from_agent := a.agent_id
      to_agent := toAgent
      message_type := mtype
      content := content
      conversation_id := cid
      requires_response := true }
  match a.message_bus with
  | some bus =>
    let r := bus.send_message m
    { msgId := m.id, busAfter := some r.1, sent := [m], delivered := r.2 }
  | none => { msgId := m.id, busAfter := none, sent := [], delivered := none }

/-- BaseAgentV2.send_error_response: error reply sent back to the sender
of the original message, reusing its conversation id. -/
def BaseAgentV2.send_error_response (a : BaseAgentV2) (original : AgentMessage)
    (err : String) (freshMsgId freshCid : String) : SendOutcome :=
  a.send_message original.from_agent
    [("error", err), ("original_message_id", original.id)]
    MessageType.error original.conversation_id freshMsgId freshCid

/-- BaseAgentV2.receive_message.  The dispatched handler
(handle_request / handle_response / handle_notification / handle_error)
is abstracted by handlerOutcome: Except.ok means the handler returned
normally, Except.error e means it raised an exception whose string form
is e.  The try/except in the source catches the exception and calls
send_error_response; the model returns that sends outcome, or none when
no exception occurred (the fault path performed no send). -/
def BaseAgentV2.receive_message (a : BaseAgentV2) (m : AgentMessage)
    (handlerOutcome : Except String Unit) (freshMsgId freshCid : String) :
    Option SendOutcome :=
  match handlerOutcome with
  | Except.ok _ => none
  | Except.error e => some (a.send_error_response m e freshMsgId freshCid)

theorem get_conversation_sendAll (bus : MessageBus) (ms : List AgentMessage) (id : String) :
    (bus.sendAll ms).get_conversation_history id =
      bus.get_conversation_history id ++ ms.filter (fun m => m.conversation_id = id) := by
  induction ms generalizing bus with
  | nil => simp [MessageBus.sendAll]
  | cons m rest ih =>
    rw [MessageBus.sendAll, ih, get_conversation_send, List.append_assoc]
    by_cases h : m.conversation_id = id
    · simp [List.filter_cons, h]
    · simp [List.filter_cons, h]

/-- C6 Conversation completeness: starting from a bus with no history, for
every sequence of send calls the conversation index at any id holds exactly
the sent envelopes whose conversation_id equals id, in send-invocation
order, with no reordering and no deduplication; for an id never sent the
filter is empty, so the result is the empty list. -/
theorem conversation_completeness (agents : List String) (ms : List AgentMessage)
    (id : String) :
    (MessageBus.sendAll ⟨agents, [], []⟩ ms).get_conversation_history id =
      ms.filter (fun m => m.conversation_id = id) := by
  rw [get_conversation_sendAll]
  simp [MessageBus.get_conversation_history, alookup]

/-- C7 Unregistered-target routing: when the target agent id is not in the
registry, send_message routes to no agent (no receive entry point is
invoked), returns without error, and still appends the envelope to the
global history and to the conversation index of its conversation id. -/
theorem unregistered_target_routing (bus : MessageBus) (m : AgentMessage)
    (h : bus.agents.contains m.to_agent = false) :
    (bus.send_message m).2 = none ∧
    (bus.send_message m).1.message_history = bus.message_history ++ [m] ∧
    (bus.send_message m).1.get_conversation_history m.conversation_id =
      bus.get_conversation_history m.conversation_id ++ [m] ∧
    (bus.send_message m).1.agents = bus.agents := by
  refine ⟨?_, rfl, ?_, rfl⟩
  · have h2 : ¬ m.to_agent ∈ bus.agents := by simpa using h
    simp [MessageBus.send_message, h2]
  · rw [get_conversation_send]
    simp

theorem unregistered_target_routing_witness :
    ((MessageBus.mk ["agent_a"] [] []).agents.contains "agent_b" = false) ∧
    (((MessageBus.mk ["agent_a"] [] []).send_message
        { id := "m1", from_agent := "agent_a", to_agent := "agent_b",
          message_type := MessageType.request, content := [],
          conversation_id := "c1", requires_response := true }).2 = none ∧
     ((MessageBus.mk ["agent_a"] [] []).send_message
        { id := "m1", from_agent := "agent_a", to_agent := "agent_b",
          message_type := MessageType.request, content := [],
          conversation_id := "c1", requires_response := true }).1.message_history =
       [] ++ [{ id := "m1", from_agent := "agent_a", to_agent := "agent_b",
                message_type := MessageType.request, content := [],
                conversation_id := "c1", requires_response := true }] ∧
     ((MessageBus.mk ["agent_a"] [] []).send_message
        { id := "m1", from_agent := "agent_a", to_agent := "agent_b",
          message_type := MessageType.request, content := [],
          conversation_id := "c1", requires_response := true }).1.get_conversation_history "c1" =
       (MessageBus.mk ["agent_a"] [] []).get_conversation_history "c1" ++
         [{ id := "m1", from_agent := "agent_a", to_agent := "agent_b",
            message_type := MessageType.request, content := [],
            conversation_id := "c1", requires_response := true }] ∧
     ((MessageBus.mk ["agent_a"] [] []).send_message
        { id := "m1", from_agent := "agent_a", to_agent := "agent_b",
          message_type := MessageType.request, content := [],
          conversation_id := "c1", requires_response := true }).1.agents =
       (MessageBus.mk ["agent_a"] [] []).agents) :=
  ⟨by decide,
   unregistered_target_routing (MessageBus.mk ["agent_a"] [] [])
     { id := "m1", from_agent := "agent_a", to_agent := "agent_b",
       message_type := MessageType.request, content := [],
       conversation_id := "c1", requires_response := true } (by decide)⟩

/-- C10 Implicit no-bus send: an agent whose message_bus is not attached
still returns the freshly generated envelope id from send_message, raises
no error, and the envelope is dropped: it is handed to no bus (sent = []),
appended to no history, and delivered to no agent. -/
theorem send_without_bus (aid toAgent : String) (content : List (String × String))
    (mtype : MessageType) (cid fid fcid : String) :
    BaseAgentV2.send_message ⟨aid, none⟩ toAgent content mtype cid fid fcid =
      { msgId := fid, busAfter := none, sent := [], delivered := none } := rfl

/-- The error envelope the spec describes for a handler fault: built by
agent aid in reply to original message m, with exception text e and the
uuid fid drawn for the reply. -/
def errReply (aid : String) (m : AgentMessage) (e fid : String) : AgentMessage :=
  { id := fid
    from_agent := aid
    to_agent := m.from_agent
    message_type := MessageType.error
    content := [("error", e), ("original_message_id", m.id)]
    conversation_id := m.conversation_id
    requires_response := true }

/-- C5 (amended) Handler-fault error propagation: when the dispatched
handler raises exception e and the original envelope carries a non-empty
conversation id, receive_message catches the exception and hands exactly
one new error envelope to the Bus, addressed to the original sender,
with the exception text under the error key and the original id under
original_message_id, reusing the original conversation id; the Bus
appends it to the global history and to that conversation, and routes it
to the original sender when registered.  (For an empty original
conversation id the reply gets a fresh conversation id instead, see the
counterexample.) -/
theorem handler_fault_error_propagation (aid : String) (bus : MessageBus)
    (m : AgentMessage) (e fid fcid : String) (h : m.conversation_id ≠ "") :
    BaseAgentV2.receive_message ⟨aid, some bus⟩ m (Except.error e) fid fcid =
      some { msgId := fid
             busAfter := some
               { bus with
                 message_history := bus.message_history ++ [errReply aid m e fid]
                 active_conversations :=
                   convAppend bus.active_conversations m.conversation_id
                     (errReply aid m e fid) }
             sent := [errReply aid m e fid]
             delivered :=
               if bus.agents.contains m.from_agent then some m.from_agent else none } := by
  simp [BaseAgentV2.receive_message, BaseAgentV2.send_error_response,
        BaseAgentV2.send_message, MessageBus.send_message, errReply, h]

theorem handler_fault_error_propagation_witness :
    (("c1" : String) ≠ "") ∧
    BaseAgentV2.receive_message ⟨"agent_a", some (MessageBus.mk ["agent_b"] [] [])⟩
        { id := "m1", from_agent := "agent_b", to_agent := "agent_a",
          message_type := MessageType.request, content := [],
          conversation_id := "c1", requires_response := true }
        (Except.error "boom") "f1" "freshcid" =
      some { msgId := "f1"
             busAfter := some
               { MessageBus.mk ["agent_b"] [] [] with
                 message_history := [] ++
                   [errReply "agent_a"
                     { id := "m1", from_agent := "agent_b", to_agent := "agent_a",
                       message_type := MessageType.request, content := [],
                       conversation_id := "c1", requires_response := true } "boom" "f1"]
                 active_conversations :=
                   convAppend [] "c1"
                     (errReply "agent_a"
                       { id := "m1", from_agent := "agent_b", to_agent := "agent_a",
                         message_type := MessageType.request, content := [],
                         conversation_id := "c1", requires_response := true } "boom" "f1") }
             sent := [errReply "agent_a"
                       { id := "m1", from_agent := "agent_b", to_agent := "agent_a",
                         message_type := MessageType.request, content := [],
                         conversation_id := "c1", requires_response := true } "boom" "f1"]
             delivered :=
               if (MessageBus.mk ["agent_b"] [] []).agents.contains "agent_b"
               then some "agent_b" else none } :=
  ⟨by decide,
   handler_fault_error_propagation "agent_a" (MessageBus.mk ["agent_b"] [] [])
     { id := "m1", from_agent := "agent_b", to_agent := "agent_a",
       message_type := MessageType.request, content := [],
       conversation_id := "c1", requires_response := true }
     "boom" "f1" "freshcid" (by decide)⟩

/-- C5 counterexample: for an original envelope whose conversation_id is
the empty string (the dataclass default), the error reply does NOT reuse
the original conversation id: send_message regenerates a fresh one
because the source checks the conversation id for falsiness.  So the
claim as stated (reuse for every envelope) is false at this input. -/
theorem handler_fault_error_propagation_counterexample :
    (BaseAgentV2.receive_message ⟨"agent_a", some (MessageBus.mk [] [] [])⟩
        { id := "m1", from_agent := "agent_b", to_agent := "agent_a",
          message_type := MessageType.request, content := [],
          conversation_id := "", requires_response := true }
        (Except.error "boom") "f1" "regenerated-cid").map
      (fun r => r.sent.map (fun mm => mm.conversation_id)) =
        some ["regenerated-cid"] ∧ ("regenerated-cid" : String) ≠ "" := by
  constructor
  · rfl
  · decide

/-- An arbitration decision returned by the Supervisor
(the dict literals inside AgenticSupervisor._make_escalation_decision). -/
structure Decision : Type where
  action : String
  guidance : String
  rationale : String
  deriving DecidableEq, Repr

/-- AgenticSupervisor._make_escalation_decision: fixed if/elif decision
ladder keyed by the escalation issue.  The source method is async but
performs no await and reads nothing but the issue, so it is a pure
function of the issue key. -/
def make_escalation_decision (issue : String) : Decision :=
  if issue = "insufficient_suppliers_found" then
    { action := "expand_search"
      guidance := "Relax compliance requirements by 10 points and expand to adjacent categories"
      rationale := "Business continuity requires finding viable suppliers" }
  else if issue = "high_risk_suppliers" then
    { action := "proceed_with_caution"
      guidance := "Accept medium-risk suppliers but require additional guarantees"
      rationale := "Manageable risk with proper safeguards" }
  else
    { action := "human_review_required"
      guidance := "Escalate to human decision maker"
      rationale := "Issue requires human judgment" }

/-- C8 Arbitration determinism: the escalation decision is a pure function
of the issue key; insufficient_suppliers_found always maps to
expand_search, high_risk_suppliers always maps to proceed_with_caution,
and any other issue always maps to human_review_required; two calls with
the same issue return identical decisions. -/
theorem arbitration_determinism :
    (make_escalation_decision "insufficient_suppliers_found").action = "expand_search" ∧
    (make_escalation_decision "high_risk_suppliers").action = "proceed_with_caution" ∧
    (∀ issue : String, issue ≠ "insufficient_suppliers_found" →
      issue ≠ "high_risk_suppliers" →
      (make_escalation_decision issue).action = "human_review_required") ∧
    (∀ issue issue' : String, issue = issue' →
      make_escalation_decision issue = make_escalation_decision issue') := by
  refine ⟨by decide, by decide, ?_, ?_⟩
  · intro issue h1 h2
    simp [make_escalation_decision, h1, h2]
  · intro issue issue' h
    rw [h]

theorem arbitration_determinism_witness :
    (("unknown_issue_code" : String) ≠ "insufficient_suppliers_found") ∧
    (("unknown_issue_code" : String) ≠ "high_risk_suppliers") ∧
    (make_escalation_decision "unknown_issue_code").action = "human_review_required" :=
  ⟨by decide, by decide,
   arbitration_determinism.2.2.1 "unknown_issue_code" (by decide) (by decide)⟩

/-- One tracked procurement case, an entry of
AgenticSupervisor.active_procurements.  The Python value is a plain dict;
the keys the lifecycle handlers read or write are modelled as fields
(absent keys are none).  start_time and end_time are clock ticks. -/
structure Procurement : Type where
  status : String
  request : List (String × String)
  start_time : Nat
  agents_involved : List String
  end_time : Option Nat := none
  outcome : Option String := none
  failure_reason : Option String := none
  final_recommendation : Option (List (String × String)) := none
  supplier_count : Option Nat := none
  note : Option String := none
  deriving DecidableEq, Repr

/-- A lifecycle message about one case, as the Supervisor handlers read
it out of the envelope content: procurement_complete
(_handle_procurement_completion), negotiation_failure
(_handle_negotiation_failure, carrying failure_details message), and
expanded_search_complete (_handle_expanded_search_completion, carrying
the result marker, supplier count, note and recommendation). -/
inductive CaseMessage : Type
  | procurementComplete (finalRecommendation : List (String × String))
  | negotiationFailure (failureMessage : String)
  | expandedSearchComplete (result : String) (supplierCount : Nat)
      (note : String) (recommendation : String)
  deriving DecidableEq, Repr

/-- The mutation each lifecycle handler applies to the addressed case
record, translated from _handle_procurement_completion,
_handle_negotiation_failure and _handle_expanded_search_completion.
Each handler assigns the status field unconditionally, without reading
the previous status.  (The expanded-search request that
_handle_negotiation_failure may additionally send is a Bus effect,
orthogonal to the case record and not modelled here.) -/
def caseUpdate (p : Procurement) (msg : CaseMessage) (now : Nat) : Procurement :=
  match msg with
  | CaseMessage.procurementComplete fr =>
    { p with status := "completed", end_time := some now,
             final_recommendation := some fr, outcome := some "success" }
  | CaseMessage.negotiationFailure fm =>
    { p with status := "failed", end_time := some now,
             failure_reason := some fm, outcome := some "failure" }
  | CaseMessage.expandedSearchComplete result cnt note rec =>
    if result = "found_alternative_suppliers" then
      { p with status := "completed", outcome := some "success_via_expanded_search",
               supplier_count := some cnt, note := some note, end_time := some now }
    else
      { p with status := "market_limitations", outcome := some "failure_market_constraints",
               failure_reason := some rec, end_time := some now }

/-- Supervisor-level effect of one lifecycle message on the case map:
each handler guards on conv_id being a tracked procurement and then
mutates that record in place. -/
def supervisorCaseStep (procs : List (String × Procurement)) (convId : String)
    (msg : CaseMessage) (now : Nat) : List (String × Procurement) :=
  match alookup procs convId with
  | some p => alinsert procs convId (caseUpdate p msg now)
  | none => procs

/-- The status each lifecycle message writes, read off the handlers; it
depends only on the message, never on the previous status of the case. -/
def messageStatus : CaseMessage → String
  | CaseMessage.procurementComplete _ => "completed"
  | CaseMessage.negotiationFailure _ => "failed"
  | CaseMessage.expandedSearchComplete result _ _ _ =>
    if result = "found_alternative_suppliers" then "completed" else "market_limitations"

/-- C1 (amended) Case status overwriting: the lifecycle handlers assign
the case status unconditionally: after any of the three messages the
status of the addressed case equals messageStatus of that message alone,
whatever status (including the terminal completed, failed and
market_limitations) the case held before.  Terminal states are therefore
not stable: any tracked case, terminal or not, is overwritten by the
next lifecycle message in its conversation. -/
theorem case_status_overwrite (procs : List (String × Procurement))
    (convId : String) (msg : CaseMessage) (now : Nat) (p : Procurement)
    (h : alookup procs convId = some p) :
    alookup (supervisorCaseStep procs convId msg now) convId =
      some (caseUpdate p msg now) ∧
    (caseUpdate p msg now).status = messageStatus msg := by
  constructor
  · simp [supervisorCaseStep, h, alookup_alinsert_self]
  · cases msg with
    | procurementComplete fr => rfl
    | negotiationFailure fm => rfl
    | expandedSearchComplete result cnt note rec =>
      by_cases hr : result = "found_alternative_suppliers" <;>
        simp [caseUpdate, messageStatus, hr]

/-- Fixture: a case already in the terminal completed status. -/
def completedCase : Procurement :=
  { status := "completed", request := [], start_time := 0,
    agents_involved := ["sourcing_agent"] }

theorem case_status_overwrite_witness :
    alookup [("c1", completedCase)] "c1" =
      some (completedCase) ∧
    (alookup
        (supervisorCaseStep [("c1", completedCase)]
          "c1" (CaseMessage.negotiationFailure "no deal") 7) "c1" =
      some (caseUpdate (completedCase)
              (CaseMessage.negotiationFailure "no deal") 7) ∧
     (caseUpdate (completedCase)
        (CaseMessage.negotiationFailure "no deal") 7).status =
       messageStatus (CaseMessage.negotiationFailure "no deal")) :=
  ⟨by decide,
   case_status_overwrite [("c1", completedCase)]
     "c1" (CaseMessage.negotiationFailure "no deal") 7
     (completedCase) (by decide)⟩

/-- C1 counterexample: a case whose status already reached the terminal
value completed has its status changed to failed by a subsequently
received negotiation_failure message, which is not the one modelled
Failed recovery path: terminal stability as claimed is false. -/
theorem case_terminal_stability_counterexample :
    (alookup
        (supervisorCaseStep [("c1", completedCase)]
          "c1" (CaseMessage.negotiationFailure "no deal") 7) "c1").map
      Procurement.status = some "failed" ∧ ("failed" : String) ≠ "completed" := by
  constructor
  · rfl
  · decide

/-- Supervisor agent state (class AgenticSupervisor in
agentic_supervisor.py): the base agent fields plus the tracked
procurement map.  The escalations list is untouched by the functions
modelled here and is omitted. -/
structure AgenticSupervisor : Type where
  base : BaseAgentV2
  active_procurements : List (String × Procurement)
  deriving DecidableEq, Repr

/-- AgenticSupervisor.initiate_procurement: draws a fresh conversation
id, records a new case with status initiated and agents_involved
containing exactly the sourcing agent, and sends a find_suppliers
request to the sourcing agent under that conversation id via
send_message.  freshCid is the uuid4 conversation id, now the clock
tick, freshMsgId/busFreshCid the uuid values drawn inside send_message.
The requirements sub-dict of the content is a nested domain payload and
is abstracted to its summary entry. -/
def initiate_procurement (sup : AgenticSupervisor) (request_data : List (String × String))
    (freshCid : String) (now : Nat) (freshMsgId busFreshCid : String) :
    String × AgenticSupervisor × SendOutcome :=
  let procurement : Procurement :=
    { status := "initiated"
      request := request_data
      start_time := now
      agents_involved := ["sourcing_agent"] }
  let procs := alinsert sup.active_procurements freshCid procurement
  let out := sup.base.send_message "sourcing_agent"
    [("request_type", "find_suppliers"),
     ("summary", "New procurement request")]
    MessageType.request freshCid freshMsgId busFreshCid
  (freshCid, { sup with active_procurements := procs }, out)

theorem alinsert_length_of_fresh {α : Type} (l : List (String × α)) (k : String) (v : α)
    (h : alookup l k = none) : (alinsert l k v).length = l.length + 1 := by
  induction l with
  | nil => simp [alinsert]
  | cons hd tl ih =>
    obtain ⟨k0, w⟩ := hd
    by_cases h0 : k0 = k
    · simp [alookup, h0] at h
    · simp [alookup, h0] at h
      simp [alinsert, h0, ih h]

/-- C9 (amended) initiateCase postcondition: initiate_procurement returns
the freshly drawn conversation id, creates exactly one new case record
under that id with status initiated, whose agents_involved holds the
sourcing agent (the first responsible agent; the originating supervisor
itself is NOT recorded, see the counterexample), leaves every other case
untouched, and hands exactly one request envelope to the Bus, addressed
to the sourcing agent and carrying the same conversation id. -/
theorem initiate_case_postcondition (sup : AgenticSupervisor)
    (request_data : List (String × String)) (freshCid : String) (now : Nat)
    (freshMsgId busFreshCid : String) (bus : MessageBus)
    (hbus : sup.base.message_bus = some bus)
    (hfresh : alookup sup.active_procurements freshCid = none)
    (hne : freshCid ≠ "") :
    (initiate_procurement sup request_data freshCid now freshMsgId busFreshCid).1 =
      freshCid ∧
    alookup (initiate_procurement sup request_data freshCid now freshMsgId
        busFreshCid).2.1.active_procurements freshCid =
      some { status := "initiated", request := request_data, start_time := now,
             agents_involved := ["sourcing_agent"] } ∧
    (∀ k : String, k ≠ freshCid →
      alookup (initiate_procurement sup request_data freshCid now freshMsgId
          busFreshCid).2.1.active_procurements k =
        alookup sup.active_procurements k) ∧
    (initiate_procurement sup request_data freshCid now freshMsgId
        busFreshCid).2.1.active_procurements.length =
      sup.active_procurements.length + 1 ∧
    (initiate_procurement sup request_data freshCid now freshMsgId
        busFreshCid).2.2.sent =
      [{ id := freshMsgId, from_agent := sup.base.agent_id,
         to_agent := "sourcing_agent", message_type := MessageType.request,
         content := [("request_type", "find_suppliers"),
                     ("summary", "New procurement request")],
         conversation_id := freshCid, requires_response := true }] := by
  refine ⟨rfl, ?_, ?_, ?_, ?_⟩
  · simp [initiate_procurement, alookup_alinsert_self]
  · intro k hk
    simp [initiate_procurement, alookup_alinsert_ne _ _ _ _ hk]
  · simp [initiate_procurement, alinsert_length_of_fresh _ _ _ hfresh]
  · simp [initiate_procurement, BaseAgentV2.send_message, hbus, hne]

/-- Fixture: a supervisor attached to a bus where the sourcing agent is
registered, tracking no case yet. -/
def supervisorFixture : AgenticSupervisor :=
  { base := { agent_id := "supervisor_agent",
              message_bus := some (MessageBus.mk ["sourcing_agent"] [] []) }
    active_procurements := [] }

theorem initiate_case_postcondition_witness :
    supervisorFixture.base.message_bus = some (MessageBus.mk ["sourcing_agent"] [] []) ∧
    alookup supervisorFixture.active_procurements "c1" = none ∧
    (("c1" : String) ≠ "") ∧
    ((initiate_procurement supervisorFixture [("category", "laptops")] "c1" 3 "f1" "b1").1 =
       "c1" ∧
     alookup (initiate_procurement supervisorFixture [("category", "laptops")] "c1" 3 "f1"
         "b1").2.1.active_procurements "c1" =
       some { status := "initiated", request := [("category", "laptops")], start_time := 3,
              agents_involved := ["sourcing_agent"] } ∧
     (∀ k : String, k ≠ "c1" →
       alookup (initiate_procurement supervisorFixture [("category", "laptops")] "c1" 3 "f1"
           "b1").2.1.active_procurements k =
         alookup supervisorFixture.active_procurements k) ∧
     (initiate_procurement supervisorFixture [("category", "laptops")] "c1" 3 "f1"
         "b1").2.1.active_procurements.length =
       supervisorFixture.active_procurements.length + 1 ∧
     (initiate_procurement supervisorFixture [("category", "laptops")] "c1" 3 "f1"
         "b1").2.2.sent =
       [{ id := "f1", from_agent := supervisorFixture.base.agent_id,
          to_agent := "sourcing_agent", message_type := MessageType.request,
          content := [("request_type", "find_suppliers"),
                      ("summary", "New procurement request")],
          conversation_id := "c1", requires_response := true }]) :=
  ⟨rfl, rfl, by decide,
   initiate_case_postcondition supervisorFixture [("category", "laptops")] "c1" 3 "f1" "b1"
     (MessageBus.mk ["sourcing_agent"] [] []) rfl rfl (by decide)⟩

/-- C9 counterexample: the created case records only the sourcing agent
in agents_involved; the originating agent (the supervisor itself,
supervisor_agent) is not recorded, so the claim that the originating
agent is recorded in participatingAgents is false at this input. -/
theorem initiate_case_counterexample :
    ((alookup (initiate_procurement supervisorFixture [] "c1" 0 "f1"
          "b1").2.1.active_procurements "c1").map Procurement.agents_involved =
      some ["sourcing_agent"]) ∧
    ¬ (∃ l : List String,
        (alookup (initiate_procurement supervisorFixture [] "c1" 0 "f1"
            "b1").2.1.active_procurements "c1").map Procurement.agents_involved = some l ∧
        supervisorFixture.base.agent_id ∈ l) := by
  constructor
  · rfl
  · intro h
    obtain ⟨l, hl, hmem⟩ := h
    have : l = ["sourcing_agent"] := by
      have h2 : some l = some ["sourcing_agent"] := by rw [← hl]; rfl
      exact Option.some.inj h2
    subst this
    simp [supervisorFixture] at hmem

/-- Workflow status enumeration (class WorkflowStatus in
session/manager.py). -/
inductive WorkflowStatus : Type
  | pending
  | in_progress
  | waiting_for_approval
  | approved
  | rejected
  | completed
  | failed
  deriving DecidableEq, Repr

/-- Individual step of the procurement workflow (dataclass WorkflowStep
in session/manager.py). -/
structure WorkflowStep : Type where
  step_id : String
  agent_responsible : String
  step_name : String
  status : WorkflowStatus
  started_at : Option Nat := none
  completed_at : Option Nat := none
  result : Option (List (String × String)) := none
  error_message : Option String := none
  deriving DecidableEq, Repr

/-- One decision-trail entry as appended by advance_workflow. -/
structure DecisionEntry : Type where
  step : String
  timestamp : Nat
  result : List (String × String)
  agent : String
  deriving DecidableEq, Repr

/-- Session state for one procurement workflow (dataclass SessionState in
session/manager.py).  agent_states, message_history and the
procurement-specific result fields play no role in the claims and are
omitted; the procurement request payload is abstracted to a string map. -/
structure SessionState : Type where
  session_id : String
  procurement_request : List (String × String)
  workflow_status : WorkflowStatus
  current_step : Option String
  workflow_steps : List WorkflowStep
  decision_trail : List DecisionEntry
  created_at : Nat
  updated_at : Nat
  deriving DecidableEq, Repr

/-- Session manager state (class SessionManager in session/manager.py);
session_timeout only affects cleanup_expired_sessions, which is not
modelled. -/
structure SessionManager : Type where
  active_sessions : List (String × SessionState)
  deriving DecidableEq, Repr

/-- SessionManager.create_session: allocates the fixed ordered step list,
all in status pending, sets current_step to sourcing, stores the session
under the fresh uuid sessionId.  Note the source never marks the first
step in_progress here.  now is the utcnow tick. -/
def initial_workflow_steps : List WorkflowStep :=
  [ { step_id := "sourcing", agent_responsible := "sourcing",
      step_name := "Find Suppliers", status := WorkflowStatus.pending },
    { step_id := "compliance", agent_responsible := "compliance",
      step_name := "Check Compliance", status := WorkflowStatus.pending },
    { step_id := "negotiation", agent_responsible := "negotiation",
      step_name := "Negotiate Terms", status := WorkflowStatus.pending },
    { step_id := "approval", agent_responsible := "supervisor",
      step_name := "Final Approval", status := WorkflowStatus.pending } ]

/-- The session object create_session builds before storing it. -/
def initial_session (sessionId : String)
    (procurement_request : List (String × String)) (now : Nat) : SessionState :=
  { session_id := sessionId
    procurement_request := procurement_request
    workflow_status := WorkflowStatus.pending
    current_step := some "sourcing"
    workflow_steps := initial_workflow_steps
    decision_trail := []
    created_at := now
    updated_at := now }

def create_session (mgr : SessionManager) (sessionId : String)
    (procurement_request : List (String × String)) (now : Nat) :
    SessionManager × String :=
  ({ active_sessions := alinsert mgr.active_sessions sessionId
       (initial_session sessionId procurement_request now) }, sessionId)

/-- The for-loop in advance_workflow that marks the named step completed:
only the first step with a matching step_id is updated (the loop breaks). -/
def completeFirst (steps : List WorkflowStep) (stepId : String)
    (result : List (String × String)) (now : Nat) : List WorkflowStep :=
  match steps with
  | [] => []
  | st :: rest =>
    if st.step_id = stepId then
      { st with status := WorkflowStatus.completed, completed_at := some now,
                result := some result } :: rest
    else st :: completeFirst rest stepId result now

/-- The second for-loop in advance_workflow that marks the next step
in_progress (again breaking at the first match). -/
def startFirst (steps : List WorkflowStep) (stepId : String) (now : Nat) :
    List WorkflowStep :=
  match steps with
  | [] => []
  | st :: rest =>
    if st.step_id = stepId then
      { st with status := WorkflowStatus.in_progress, started_at := some now } :: rest
    else st :: startFirst rest stepId now

/-- The fixed step order hard-coded in advance_workflow. -/
def step_order : List String := ["sourcing", "compliance", "negotiation", "approval"]

/-- Position of a string in a list, modelling Python list.index: none
models the ValueError raised for a missing element. -/
def indexOfStr (l : List String) (x : String) : Option Nat :=
  match l with
  | [] => none
  | y :: rest => if y = x then some 0 else (indexOfStr rest x).map (fun i => i + 1)

/-- SessionManager.advance_workflow.  Returns the updated manager and the
boolean result.  The Python method mutates the session object in place:
it first completes the named step and appends the decision-trail entry,
and only then resolves the step in the fixed order; when the step name is
unknown the ValueError path returns False with those first two mutations
already applied and updated_at untouched. -/
def advance_workflow (mgr : SessionManager) (sessionId currentStep : String)
    (result : List (String × String)) (now : Nat) : SessionManager × Bool :=
  match alookup mgr.active_sessions sessionId with
  | none => (mgr, false)
  | some session =>
    let steps1 := completeFirst session.workflow_steps currentStep result now
    let agent :=
      ((session.workflow_steps.find? (fun s => s.step_id = currentStep)).map
        (fun s => s.agent_responsible)).getD "unknown"
    let trail1 := session.decision_trail ++
      [{ step := currentStep, timestamp := now, result := result, agent := agent }]
    match indexOfStr step_order currentStep with
    | none =>
      ({ active_sessions := alinsert mgr.active_sessions sessionId
           { session with workflow_steps := steps1, decision_trail := trail1 } },
       false)
    | some i =>
      if i < step_order.length - 1 then
        let nextStep := step_order.getD (i + 1) ""
        let steps2 := startFirst steps1 nextStep now
        ({ active_sessions := alinsert mgr.active_sessions sessionId
             { session with workflow_steps := steps2, decision_trail := trail1,
                            current_step := some nextStep, updated_at := now } },
         true)
      else
        ({ active_sessions := alinsert mgr.active_sessions sessionId
             { session with workflow_steps := steps1, decision_trail := trail1,
                            current_step := none,
                            workflow_status := WorkflowStatus.completed,
                            updated_at := now } },
         true)

theorem indexOfStr_eq_none (l : List String) (x : String)
    (h : l.contains x = false) : indexOfStr l x = none := by
  induction l with
  | nil => rfl
  | cons y rest ih =>
    simp at h
    simp [indexOfStr, h.1, ih (by simpa using h.2)]
    exact fun hh => absurd hh.symm h.1

theorem completeFirst_no_match (steps : List WorkflowStep) (stepId : String)
    (r : List (String × String)) (now : Nat)
    (h : steps.all (fun st => !(st.step_id = stepId)) = true) :
    completeFirst steps stepId r now = steps := by
  induction steps with
  | nil => rfl
  | cons st rest ih =>
    simp at h
    simp [completeFirst, h.1, ih (by simpa using h.2)]

theorem find_step_no_match (steps : List WorkflowStep) (stepId : String)
    (h : steps.all (fun st => !(st.step_id = stepId)) = true) :
    steps.find? (fun s => s.step_id = stepId) = none := by
  induction steps with
  | nil => rfl
  | cons st rest ih =>
    simp at h
    simp [List.find?, h.1, ih (by simpa using h.2)]

/-- C2 (amended) advanceWorkflow failure behaviour: for an unknown
sessionID advance_workflow returns false and mutates nothing at all; for
a known session and a stepID that matches neither a recognized step name
nor any workflow step id it returns false and leaves every step status,
current_step, workflow_status and updated_at unchanged, BUT it does
append one decision-trail entry (with agent unknown) before the unknown
step is detected, so the mutation-free part of the original claim fails
for the decision trail (see the counterexample). -/
theorem advance_workflow_failure (mgr : SessionManager) (sessionId stepId : String)
    (r : List (String × String)) (now : Nat) :
    (alookup mgr.active_sessions sessionId = none →
      advance_workflow mgr sessionId stepId r now = (mgr, false)) ∧
    (∀ session : SessionState,
      alookup mgr.active_sessions sessionId = some session →
      step_order.contains stepId = false →
      session.workflow_steps.all (fun st => !(st.step_id = stepId)) = true →
      advance_workflow mgr sessionId stepId r now =
        ({ active_sessions := alinsert mgr.active_sessions sessionId
             { session with decision_trail := session.decision_trail ++
                 [{ step := stepId, timestamp := now, result := r,
                    agent := "unknown" }] } },
         false)) := by
  constructor
  · intro h
    simp [advance_workflow, h]
  · intro session hs horder hsteps
    simp [advance_workflow, hs, indexOfStr_eq_none _ _ horder,
          completeFirst_no_match _ _ _ _ hsteps, find_step_no_match _ _ hsteps]

/-- Fixture: the session produced by create_session under id s1 at tick 0
with an empty request. -/
def sessionFixture : SessionState :=
  { session_id := "s1"
    procurement_request := []
    workflow_status := WorkflowStatus.pending
    current_step := some "sourcing"
    workflow_steps :=
      [ { step_id := "sourcing", agent_responsible := "sourcing",
          step_name := "Find Suppliers", status := WorkflowStatus.pending },
        { step_id := "compliance", agent_responsible := "compliance",
          step_name := "Check Compliance", status := WorkflowStatus.pending },
        { step_id := "negotiation", agent_responsible := "negotiation",
          step_name := "Negotiate Terms", status := WorkflowStatus.pending },
        { step_id := "approval", agent_responsible := "supervisor",
          step_name := "Final Approval", status := WorkflowStatus.pending } ]
    decision_trail := []
    created_at := 0
    updated_at := 0 }

/-- Fixture: a manager holding exactly sessionFixture under s1. -/
def managerFixture : SessionManager :=
  { active_sessions := [("s1", sessionFixture)] }

theorem advance_workflow_failure_witness :
    alookup managerFixture.active_sessions "s1" = some sessionFixture ∧
    step_order.contains "bogus" = false ∧
    sessionFixture.workflow_steps.all (fun st => !(st.step_id = "bogus")) = true ∧
    advance_workflow managerFixture "s1" "bogus" [] 1 =
      ({ active_sessions := alinsert managerFixture.active_sessions "s1"
           { sessionFixture with decision_trail := sessionFixture.decision_trail ++
               [{ step := "bogus", timestamp := 1, result := [],
                  agent := "unknown" }] } },
       false) :=
  ⟨by decide, by decide, by decide,
   (advance_workflow_failure managerFixture "s1" "bogus" [] 1).2 sessionFixture
     (by decide) (by decide) (by decide)⟩

/-- C2 counterexample: with a known session, advance_workflow on the
unrecognized step bogus returns false and yet mutates the session: the
decision trail grows from zero to one entry, refuting the claim that no
mutation whatsoever is performed. -/
theorem advance_workflow_failure_counterexample :
    (advance_workflow managerFixture "s1" "bogus" [] 1).2 = false ∧
    ((alookup (advance_workflow managerFixture "s1" "bogus" [] 1).1.active_sessions
        "s1").map (fun s => s.decision_trail.length)) = some 1 ∧
    ((alookup managerFixture.active_sessions "s1").map
        (fun s => s.decision_trail.length)) = some 0 := by
  refine ⟨rfl, rfl, rfl⟩

/-- C4 (amended) createSession postcondition: create_session returns the
fresh session id and stores under it a session whose ordered step list is
exactly sourcing, compliance, negotiation, approval, all in status
pending, with current_step set to the first step sourcing; the first
step is left pending, it is NOT marked in_progress (see the
counterexample). -/
theorem create_session_postcondition (mgr : SessionManager) (sessionId : String)
    (req : List (String × String)) (now : Nat) :
    (create_session mgr sessionId req now).2 = sessionId ∧
    ∃ s : SessionState,
      alookup (create_session mgr sessionId req now).1.active_sessions sessionId =
        some s ∧
      s.workflow_steps.map (fun st => st.step_id) = step_order ∧
      s.workflow_steps.map (fun st => st.status) =
        [WorkflowStatus.pending, WorkflowStatus.pending,
         WorkflowStatus.pending, WorkflowStatus.pending] ∧
      s.current_step = some "sourcing" ∧
      s.workflow_status = WorkflowStatus.pending ∧
      s.decision_trail = [] := by
  refine ⟨rfl, ?_⟩
  refine ⟨initial_session sessionId req now, ?_, rfl, rfl, rfl, rfl, rfl⟩
  exact alookup_alinsert_self _ _ _

/-- C4 counterexample: after create_session the first step (sourcing) has
status pending, not in_progress: the claim that the first step is set to
in_progress is false on the code. -/
theorem create_session_counterexample :
    ((alookup (create_session (SessionManager.mk []) "s1" [] 0).1.active_sessions
        "s1").map (fun s => s.workflow_steps.map (fun st => st.status))) =
      some [WorkflowStatus.pending, WorkflowStatus.pending,
            WorkflowStatus.pending, WorkflowStatus.pending] ∧
    ((alookup (create_session (SessionManager.mk []) "s1" [] 0).1.active_sessions
        "s1").map (fun s => s.current_step)) = some (some "sourcing") ∧
    WorkflowStatus.pending ≠ WorkflowStatus.in_progress := by
  refine ⟨rfl, rfl, by decide⟩

/-- One in-order advance call: advancing the session by naming its own
current step, the intended use of advance_workflow (a no-op when the
session is absent or already complete). -/
def advance_current (mgr : SessionManager) (sid : String)
    (r : List (String × String)) (t : Nat) : SessionManager :=
  match alookup mgr.active_sessions sid with
  | some session =>
    match session.current_step with
    | some st => (advance_workflow mgr sid st r t).1
    | none => mgr
  | none => mgr

/-- A sequence of in-order advance calls with arbitrary result payloads
and clock ticks. -/
def run_in_order (mgr : SessionManager) (sid : String) :
    List (List (String × String) × Nat) → SessionManager
  | [] => mgr
  | (r, t) :: rest => run_in_order (advance_current mgr sid r t) sid rest

/-- The step list holds exactly the four declared steps with the given
statuses. -/
def StepsShape (s : SessionState) (st0 st1 st2 st3 : WorkflowStatus) : Prop :=
  ∃ a b c d : WorkflowStep, s.workflow_steps = [a, b, c, d] ∧
    a.step_id = "sourcing" ∧ b.step_id = "compliance" ∧
    c.step_id = "negotiation" ∧ d.step_id = "approval" ∧
    a.status = st0 ∧ b.status = st1 ∧ c.status = st2 ∧ d.status = st3

/-- Characterization of a session that has completed k in-order steps. -/
def Shape (s : SessionState) : Nat → Prop
  | 0 => StepsShape s WorkflowStatus.pending WorkflowStatus.pending
           WorkflowStatus.pending WorkflowStatus.pending ∧
         s.current_step = some "sourcing" ∧
         s.workflow_status = WorkflowStatus.pending
  | 1 => StepsShape s WorkflowStatus.completed WorkflowStatus.in_progress
           WorkflowStatus.pending WorkflowStatus.pending ∧
         s.current_step = some "compliance" ∧
         s.workflow_status = WorkflowStatus.pending
  | 2 => StepsShape s WorkflowStatus.completed WorkflowStatus.completed
           WorkflowStatus.in_progress WorkflowStatus.pending ∧
         s.current_step = some "negotiation" ∧
         s.workflow_status = WorkflowStatus.pending
  | 3 => StepsShape s WorkflowStatus.completed WorkflowStatus.completed
           WorkflowStatus.completed WorkflowStatus.in_progress ∧
         s.current_step = some "approval" ∧
         s.workflow_status = WorkflowStatus.pending
  | _ => StepsShape s WorkflowStatus.completed WorkflowStatus.completed
           WorkflowStatus.completed WorkflowStatus.completed ∧
         s.current_step = none ∧
         s.workflow_status = WorkflowStatus.completed

/-- A session reachable by create_session plus in-order advances. -/
def GoodSession (s : SessionState) : Prop := ∃ k : Nat, Shape s k

theorem advance_sourcing (mgr : SessionManager) (sid : String)
    (r : List (String × String)) (t : Nat) (s : SessionState)
    (a b c d : WorkflowStep)
    (hs : alookup mgr.active_sessions sid = some s)
    (hsteps : s.workflow_steps = [a, b, c, d])
    (hida : a.step_id = "sourcing") (hidb : b.step_id = "compliance") :
    advance_workflow mgr sid "sourcing" r t =
      ({ active_sessions := alinsert mgr.active_sessions sid
           { s with
             workflow_steps :=
               [{ a with status := WorkflowStatus.completed, completed_at := some t,
                         result := some r },
                { b with status := WorkflowStatus.in_progress, started_at := some t },
                c, d]
             decision_trail := s.decision_trail ++
               [{ step := "sourcing", timestamp := t, result := r,
                  agent := a.agent_responsible }]
             current_step := some "compliance"
             updated_at := t } }, true) := by
  have hidx : indexOfStr step_order "sourcing" = some 0 := by decide
  have hlt : (0 : Nat) < step_order.length - 1 := by decide
  have hnext : step_order[1]? = some "compliance" := by decide
  simp [advance_workflow, hs, hsteps, hidx, hlt, hnext, completeFirst, startFirst,
        hida, hidb, List.find?]

theorem advance_compliance (mgr : SessionManager) (sid : String)
    (r : List (String × String)) (t : Nat) (s : SessionState)
    (a b c d : WorkflowStep)
    (hs : alookup mgr.active_sessions sid = some s)
    (hsteps : s.workflow_steps = [a, b, c, d])
    (hida : a.step_id = "sourcing") (hidb : b.step_id = "compliance")
    (hidc : c.step_id = "negotiation") :
    advance_workflow mgr sid "compliance" r t =
      ({ active_sessions := alinsert mgr.active_sessions sid
           { s with
             workflow_steps :=
               [a,
                { b with status := WorkflowStatus.completed, completed_at := some t,
                         result := some r },
                { c with status := WorkflowStatus.in_progress, started_at := some t },
                d]
             decision_trail := s.decision_trail ++
               [{ step := "compliance", timestamp := t, result := r,
                  agent := b.agent_responsible }]
             current_step := some "negotiation"
             updated_at := t } }, true) := by
  have hidx : indexOfStr step_order "compliance" = some 1 := by decide
  have hlt : (1 : Nat) < step_order.length - 1 := by decide
  have hnext : step_order[2]? = some "negotiation" := by decide
  simp [advance_workflow, hs, hsteps, hidx, hlt, hnext, completeFirst, startFirst,
        hida, hidb, hidc, List.find?]

theorem advance_negotiation (mgr : SessionManager) (sid : String)
    (r : List (String × String)) (t : Nat) (s : SessionState)
    (a b c d : WorkflowStep)
    (hs : alookup mgr.active_sessions sid = some s)
    (hsteps : s.workflow_steps = [a, b, c, d])
    (hida : a.step_id = "sourcing") (hidb : b.step_id = "compliance")
    (hidc : c.step_id = "negotiation") (hidd : d.step_id = "approval") :
    advance_workflow mgr sid "negotiation" r t =
      ({ active_sessions := alinsert mgr.active_sessions sid
           { s with
             workflow_steps :=
               [a, b,
                { c with status := WorkflowStatus.completed, completed_at := some t,
                         result := some r },
                { d with status := WorkflowStatus.in_progress, started_at := some t }]
             decision_trail := s.decision_trail ++
               [{ step := "negotiation", timestamp := t, result := r,
                  agent := c.agent_responsible }]
             current_step := some "approval"
             updated_at := t } }, true) := by
  have hidx : indexOfStr step_order "negotiation" = some 2 := by decide
  have hlt : (2 : Nat) < step_order.length - 1 := by decide
  have hnext : step_order[3]? = some "approval" := by decide
  simp [advance_workflow, hs, hsteps, hidx, hlt, hnext, completeFirst, startFirst,
        hida, hidb, hidc, hidd, List.find?]

theorem advance_approval (mgr : SessionManager) (sid : String)
    (r : List (String × String)) (t : Nat) (s : SessionState)
    (a b c d : WorkflowStep)
    (hs : alookup mgr.active_sessions sid = some s)
    (hsteps : s.workflow_steps = [a, b, c, d])
    (hida : a.step_id = "sourcing") (hidb : b.step_id = "compliance")
    (hidc : c.step_id = "negotiation") (hidd : d.step_id = "approval") :
    advance_workflow mgr sid "approval" r t =
      ({ active_sessions := alinsert mgr.active_sessions sid
           { s with
             workflow_steps :=
               [a, b, c,
                { d with status := WorkflowStatus.completed, completed_at := some t,
                         result := some r }]
             decision_trail := s.decision_trail ++
               [{ step := "approval", timestamp := t, result := r,
                  agent := d.agent_responsible }]
             current_step := none
             workflow_status := WorkflowStatus.completed
             updated_at := t } }, true) := by
  have hidx : indexOfStr step_order "approval" = some 3 := by decide
  have hlt : ¬ ((3 : Nat) < step_order.length - 1) := by decide
  simp [advance_workflow, hs, hsteps, hidx, hlt, completeFirst,
        hida, hidb, hidc, hidd, List.find?]

theorem advance_current_good (mgr : SessionManager) (sid : String)
    (r : List (String × String)) (t : Nat) (s : SessionState)
    (hs : alookup mgr.active_sessions sid = some s) (hg : GoodSession s) :
    ∃ s', alookup (advance_current mgr sid r t).active_sessions sid = some s' ∧
      GoodSession s' := by
  obtain ⟨k, hk⟩ := hg
  match k with
  | 0 =>
    obtain ⟨⟨a, b, c, d, hsteps, hida, hidb, hidc, hidd, ha, hb, hc, hd⟩, hcur, hstat⟩ := hk
    have hadv := advance_sourcing mgr sid r t s a b c d hs hsteps hida hidb
    rw [show advance_current mgr sid r t = (advance_workflow mgr sid "sourcing" r t).1 from
          by simp [advance_current, hs, hcur], hadv]
    refine ⟨_, alookup_alinsert_self _ _ _, 1, ?_⟩
    exact ⟨⟨_, _, c, d, rfl, hida, hidb, hidc, hidd, rfl, rfl, hc, hd⟩, rfl, hstat⟩
  | 1 =>
    obtain ⟨⟨a, b, c, d, hsteps, hida, hidb, hidc, hidd, ha, hb, hc, hd⟩, hcur, hstat⟩ := hk
    have hadv := advance_compliance mgr sid r t s a b c d hs hsteps hida hidb hidc
    rw [show advance_current mgr sid r t = (advance_workflow mgr sid "compliance" r t).1 from
          by simp [advance_current, hs, hcur], hadv]
    refine ⟨_, alookup_alinsert_self _ _ _, 2, ?_⟩
    exact ⟨⟨a, _, _, d, rfl, hida, hidb, hidc, hidd, ha, rfl, rfl, hd⟩, rfl, hstat⟩
  | 2 =>
    obtain ⟨⟨a, b, c, d, hsteps, hida, hidb, hidc, hidd, ha, hb, hc, hd⟩, hcur, hstat⟩ := hk
    have hadv := advance_negotiation mgr sid r t s a b c d hs hsteps hida hidb hidc hidd
    rw [show advance_current mgr sid r t = (advance_workflow mgr sid "negotiation" r t).1 from
          by simp [advance_current, hs, hcur], hadv]
    refine ⟨_, alookup_alinsert_self _ _ _, 3, ?_⟩
    exact ⟨⟨a, b, _, _, rfl, hida, hidb, hidc, hidd, ha, hb, rfl, rfl⟩, rfl, hstat⟩
  | 3 =>
    obtain ⟨⟨a, b, c, d, hsteps, hida, hidb, hidc, hidd, ha, hb, hc, hd⟩, hcur, hstat⟩ := hk
    have hadv := advance_approval mgr sid r t s a b c d hs hsteps hida hidb hidc hidd
    rw [show advance_current mgr sid r t = (advance_workflow mgr sid "approval" r t).1 from
          by simp [advance_current, hs, hcur], hadv]
    refine ⟨_, alookup_alinsert_self _ _ _, 4, ?_⟩
    exact ⟨⟨a, b, c, _, rfl, hida, hidb, hidc, hidd, ha, hb, hc, rfl⟩, rfl, rfl⟩
  | (n + 4) =>
    obtain ⟨hshape, hcur, hstat⟩ := hk
    refine ⟨s, ?_, n + 4, ?_⟩
    · simp [advance_current, hs, hcur]
    · exact ⟨hshape, hcur, hstat⟩

theorem run_in_order_good (sid : String) (rs : List (List (String × String) × Nat)) :
    ∀ (mgr : SessionManager) (s : SessionState),
      alookup mgr.active_sessions sid = some s → GoodSession s →
      ∃ s', alookup (run_in_order mgr sid rs).active_sessions sid = some s' ∧
        GoodSession s' := by
  induction rs with
  | nil => exact fun mgr s hs hg => ⟨s, hs, hg⟩
  | cons p rest ih =>
    intro mgr s hs hg
    obtain ⟨r, t⟩ := p
    obtain ⟨s1, hs1, hg1⟩ := advance_current_good mgr sid r t s hs hg
    exact ih _ _ hs1 hg1

/-- First step whose status is non-terminal (not completed and not
failed), the step currentStep should name per the spec invariant. -/
def firstNonTerminal (steps : List WorkflowStep) : Option WorkflowStep :=
  steps.find? (fun st =>
    !(st.status = WorkflowStatus.completed || st.status = WorkflowStatus.failed))

/-- The completed steps form a prefix of the declared order: once a
non-completed step occurs, no later step is completed.  This is the
state-level formulation of steps completing strictly in declared order. -/
def completedPrefix : List WorkflowStep → Bool
  | [] => true
  | st :: rest =>
    if st.status = WorkflowStatus.completed then completedPrefix rest
    else rest.all (fun st2 => !(st2.status = WorkflowStatus.completed))

/-- The current_step pointer names the first non-terminal step, or is
empty with the session marked completed when no step is left. -/
def currentOk (s : SessionState) : Prop :=
  match firstNonTerminal s.workflow_steps with
  | some st => s.current_step = some st.step_id
  | none => s.current_step = none ∧ s.workflow_status = WorkflowStatus.completed

theorem good_session_invariant (s : SessionState) (hg : GoodSession s) :
    s.workflow_steps.countP (fun st => st.status = WorkflowStatus.in_progress) ≤ 1 ∧
    completedPrefix s.workflow_steps = true ∧ currentOk s := by
  obtain ⟨k, hk⟩ := hg
  match k with
  | 0 =>
    obtain ⟨⟨a, b, c, d, hsteps, hida, hidb, hidc, hidd, ha, hb, hc, hd⟩, hcur, hstat⟩ := hk
    refine ⟨?_, ?_, ?_⟩
    · simp [hsteps, List.countP_cons, ha, hb, hc, hd]
    · simp [hsteps, completedPrefix, ha, hb, hc, hd]
    · simp [currentOk, firstNonTerminal, hsteps, List.find?, ha, hb, hc, hd, hcur, hida]
  | 1 =>
    obtain ⟨⟨a, b, c, d, hsteps, hida, hidb, hidc, hidd, ha, hb, hc, hd⟩, hcur, hstat⟩ := hk
    refine ⟨?_, ?_, ?_⟩
    · simp [hsteps, List.countP_cons, ha, hb, hc, hd]
    · simp [hsteps, completedPrefix, ha, hb, hc, hd]
    · simp [currentOk, firstNonTerminal, hsteps, List.find?, ha, hb, hc, hd, hcur, hidb]
  | 2 =>
    obtain ⟨⟨a, b, c, d, hsteps, hida, hidb, hidc, hidd, ha, hb, hc, hd⟩, hcur, hstat⟩ := hk
    refine ⟨?_, ?_, ?_⟩
    · simp [hsteps, List.countP_cons, ha, hb, hc, hd]
    · simp [hsteps, completedPrefix, ha, hb, hc, hd]
    · simp [currentOk, firstNonTerminal, hsteps, List.find?, ha, hb, hc, hd, hcur, hidc]
  | 3 =>
    obtain ⟨⟨a, b, c, d, hsteps, hida, hidb, hidc, hidd, ha, hb, hc, hd⟩, hcur, hstat⟩ := hk
    refine ⟨?_, ?_, ?_⟩
    · simp [hsteps, List.countP_cons, ha, hb, hc, hd]
    · simp [hsteps, completedPrefix, ha, hb, hc, hd]
    · simp [currentOk, firstNonTerminal, hsteps, List.find?, ha, hb, hc, hd, hcur, hidd]
  | (n + 4) =>
    obtain ⟨⟨a, b, c, d, hsteps, hida, hidb, hidc, hidd, ha, hb, hc, hd⟩, hcur, hstat⟩ := hk
    refine ⟨?_, ?_, ?_⟩
    · simp [hsteps, List.countP_cons, ha, hb, hc, hd]
    · simp [hsteps, completedPrefix, ha, hb, hc, hd]
    · simp [currentOk, firstNonTerminal, hsteps, List.find?, ha, hb, hc, hd, hcur, hstat]

/-- C3 (amended) Workflow step-machine invariant for in-order runs: for
every session created by create_session and evolved by any sequence of
in-order advance calls (each call naming the session's own current step,
via advance_current), at most one workflow step is in_progress, the
completed steps form a prefix of the declared order sourcing, compliance,
negotiation, approval, and current_step names the first non-terminal
step, or is empty with the session completed when none is left.  The
unrestricted claim over arbitrary advance_workflow call sequences is
false: see the counterexample, where two out-of-order calls leave two
steps in_progress at once. -/
theorem workflow_step_machine_invariant (mgr0 : SessionManager) (sid : String)
    (req : List (String × String)) (t0 : Nat)
    (rs : List (List (String × String) × Nat)) (s : SessionState)
    (hs : alookup (run_in_order (create_session mgr0 sid req t0).1 sid
            rs).active_sessions sid = some s) :
    s.workflow_steps.countP (fun st => st.status = WorkflowStatus.in_progress) ≤ 1 ∧
    completedPrefix s.workflow_steps = true ∧ currentOk s := by
  have h0 : alookup (create_session mgr0 sid req t0).1.active_sessions sid =
      some (initial_session sid req t0) := alookup_alinsert_self _ _ _
  have hg0 : GoodSession (initial_session sid req t0) :=
    ⟨0, ⟨⟨_, _, _, _, rfl, rfl, rfl, rfl, rfl, rfl, rfl, rfl, rfl⟩, rfl, rfl⟩⟩
  obtain ⟨s', hs', hg'⟩ := run_in_order_good sid rs _ _ h0 hg0
  rw [hs'] at hs
  obtain rfl := Option.some.inj hs
  exact good_session_invariant _ hg'

/-- Fixture: the session after create_session and two in-order advances
(sourcing at tick 1, compliance at tick 2). -/
def sessionAfterTwo : SessionState :=
  { session_id := "s1"
    procurement_request := []
    workflow_status := WorkflowStatus.pending
    current_step := some "negotiation"
    workflow_steps :=
      [ { step_id := "sourcing", agent_responsible := "sourcing",
          step_name := "Find Suppliers", status := WorkflowStatus.completed,
          completed_at := some 1, result := some [("supplier", "acme")] },
        { step_id := "compliance", agent_responsible := "compliance",
          step_name := "Check Compliance", status := WorkflowStatus.completed,
          started_at := some 1, completed_at := some 2, result := some [] },
        { step_id := "negotiation", agent_responsible := "negotiation",
          step_name := "Negotiate Terms", status := WorkflowStatus.in_progress,
          started_at := some 2 },
        { step_id := "approval", agent_responsible := "supervisor",
          step_name := "Final Approval", status := WorkflowStatus.pending } ]
    decision_trail :=
      [ { step := "sourcing", timestamp := 1, result := [("supplier", "acme")],
          agent := "sourcing" },
        { step := "compliance", timestamp := 2, result := [], agent := "compliance" } ]
    created_at := 0
    updated_at := 2 }

theorem workflow_step_machine_invariant_witness :
    (alookup (run_in_order (create_session (SessionManager.mk []) "s1" [] 0).1 "s1"
        [([("supplier", "acme")], 1), ([], 2)]).active_sessions "s1" =
      some sessionAfterTwo) ∧
    (sessionAfterTwo.workflow_steps.countP
        (fun st => st.status = WorkflowStatus.in_progress) ≤ 1 ∧
     completedPrefix sessionAfterTwo.workflow_steps = true ∧ currentOk sessionAfterTwo) :=
  ⟨rfl, workflow_step_machine_invariant (SessionManager.mk []) "s1" [] 0
    [([("supplier", "acme")], 1), ([], 2)] sessionAfterTwo rfl⟩

/-- C3 counterexample: for arbitrary advance_workflow call sequences the
claimed invariant is false: advancing negotiation first and sourcing
second, both calls succeeding, leaves two steps in_progress at once
(compliance and approval), and negotiation completes before sourcing. -/
theorem workflow_step_machine_counterexample :
    ((alookup (advance_workflow (advance_workflow
          (create_session (SessionManager.mk []) "s1" [] 0).1
          "s1" "negotiation" [] 1).1 "s1" "sourcing" [] 2).1.active_sessions "s1").map
        (fun s => s.workflow_steps.countP
          (fun st => st.status = WorkflowStatus.in_progress))) = some 2 ∧
    ¬ ((2 : Nat) ≤ 1) := by
  constructor
  · rfl
  · decide
